import Mathlib

/-!
Verification of the extension subsystem of MYK-Desktop
(`src-tauri/src/extensions/`): manifest validation and checksum
verification, the extension loader, the WASM runtime registry and its
host imports, and the HTTP egress sandbox.

The Rust source is embedded shallowly:
* machine integers are `Nat` (ports, octets, sizes are bounded in the
  source and never overflow on the paths modelled here);
* fallible operations return `Except ExtensionError _` mirroring the
  `Result<_, ExtensionError>` values of the source;
* external library calls (SHA-256, the `url` crate parser, `IpAddr`
  string parsing, wasmtime compilation, the network) are abstracted as
  explicit function parameters, so every theorem quantifies over them;
* filesystem reads are abstracted as already-read values (`Option` for
  a file that may be absent or unreadable).
-/

namespace MYK

/-- Error taxonomy, from `extensions/mod.rs` (`enum ExtensionError`). -/
inductive ExtensionError where
  | LoadError (msg : String)
  | RuntimeError (msg : String)
  | ValidationError (msg : String)
  | HttpError (msg : String)
  | SerializationError (msg : String)
deriving DecidableEq

/-- The `Display` implementation for `ExtensionError` in `extensions/mod.rs`,
used by the command layer when converting errors to strings. -/
def ExtensionError.toString : ExtensionError → String
  | .LoadError msg => "Load error: " ++ msg
  | .RuntimeError msg => "Runtime error: " ++ msg
  | .ValidationError msg => "Validation error: " ++ msg
  | .HttpError msg => "HTTP error: " ++ msg
  | .SerializationError msg => "Serialization error: " ++ msg

namespace abi

namespace host_functions

/-- Name of the HTTP GET host import (`extensions/abi.rs`). -/
def HTTP_GET : String := "host_http_get"

/-- Name of the HTTP POST host import (`extensions/abi.rs`). -/
def HTTP_POST : String := "host_http_post"

/-- Name of the logging host import (`extensions/abi.rs`). -/
def LOG : String := "host_log"

end host_functions

namespace wasm_exports

/-- Guest export name `extension_search` (`extensions/abi.rs`). -/
def SEARCH : String := "extension_search"

/-- Guest export name `extension_get_chapters` (`extensions/abi.rs`). -/
def GET_CHAPTERS : String := "extension_get_chapters"

/-- Guest export name `extension_get_chapter_images` (`extensions/abi.rs`). -/
def GET_CHAPTER_IMAGES : String := "extension_get_chapter_images"

/-- Guest export name `extension_get_languages` (`extensions/abi.rs`). -/
def GET_LANGUAGES : String := "extension_get_languages"

/-- Guest allocator export name (`extensions/abi.rs`). -/
def ALLOC : String := "alloc"

/-- Guest deallocator export name (`extensions/abi.rs`). -/
def DEALLOC : String := "dealloc"

end wasm_exports

end abi

/-- An IP address as in `std::net::IpAddr`: four octets for IPv4, eight
16-bit segments for IPv6. -/
inductive IpAddr where
  | V4 (a b c d : Nat)
  | V6 (s0 s1 s2 s3 s4 s5 s6 s7 : Nat)
deriving DecidableEq

/-- `Ipv4Addr::is_private`: 10.0.0.0/8, 172.16.0.0/12, 192.168.0.0/16. -/
def ipv4_is_private (a b : Nat) : Bool :=
  decide (a = 10) || (decide (a = 172) && decide (16 ≤ b) && decide (b ≤ 31)) ||
    (decide (a = 192) && decide (b = 168))

/-- `Ipv4Addr::is_loopback`: 127.0.0.0/8. -/
def ipv4_is_loopback (a : Nat) : Bool := decide (a = 127)

/-- `Ipv4Addr::is_link_local`: 169.254.0.0/16. -/
def ipv4_is_link_local (a b : Nat) : Bool := decide (a = 169) && decide (b = 254)

/-- `Ipv4Addr::is_broadcast`: 255.255.255.255. -/
def ipv4_is_broadcast (a b c d : Nat) : Bool :=
  decide (a = 255) && decide (b = 255) && decide (c = 255) && decide (d = 255)

/-- `Ipv4Addr::is_documentation`: 192.0.2.0/24, 198.51.100.0/24, 203.0.113.0/24. -/
def ipv4_is_documentation (a b c : Nat) : Bool :=
  (decide (a = 192) && decide (b = 0) && decide (c = 2)) ||
    (decide (a = 198) && decide (b = 51) && decide (c = 100)) ||
    (decide (a = 203) && decide (b = 0) && decide (c = 113))

/-- `Ipv4Addr::is_unspecified`: 0.0.0.0. -/
def ipv4_is_unspecified (a b c d : Nat) : Bool :=
  decide (a = 0) && decide (b = 0) && decide (c = 0) && decide (d = 0)

/-- Carrier-grade NAT test from `HttpSandbox::is_private_ip`
(`sandbox.rs`): `octets[0] == 100 && octets[1] & 0b11000000 == 64`. -/
def ipv4_is_cgnat (a b : Nat) : Bool := decide (a = 100) && decide (Nat.land b 192 = 64)

/-- `Ipv6Addr::is_loopback`: `::1`. -/
def ipv6_is_loopback (s0 s1 s2 s3 s4 s5 s6 s7 : Nat) : Bool :=
  decide (s0 = 0) && decide (s1 = 0) && decide (s2 = 0) && decide (s3 = 0) &&
    decide (s4 = 0) && decide (s5 = 0) && decide (s6 = 0) && decide (s7 = 1)

/-- `Ipv6Addr::is_unspecified`: `::`. -/
def ipv6_is_unspecified (s0 s1 s2 s3 s4 s5 s6 s7 : Nat) : Bool :=
  decide (s0 = 0) && decide (s1 = 0) && decide (s2 = 0) && decide (s3 = 0) &&
    decide (s4 = 0) && decide (s5 = 0) && decide (s6 = 0) && decide (s7 = 0)

/-- Unique-local test from `is_private_ip` (`sandbox.rs`):
`segments[0] & 0xfe00 == 0xfc00`. -/
def ipv6_is_unique_local (s0 : Nat) : Bool := decide (Nat.land s0 65024 = 64512)

/-- Link-local test from `is_private_ip` (`sandbox.rs`):
`segments[0] & 0xffc0 == 0xfe80`. -/
def ipv6_is_link_local (s0 : Nat) : Bool := decide (Nat.land s0 65472 = 65152)

/-- `HttpSandbox::is_private_ip` (`sandbox.rs`, lines 204-223). -/
def is_private_ip : IpAddr → Bool
  | .V4 a b c d =>
    ipv4_is_private a b || ipv4_is_loopback a || ipv4_is_link_local a b ||
      ipv4_is_broadcast a b c d || ipv4_is_documentation a b c ||
      ipv4_is_unspecified a b c d || ipv4_is_cgnat a b
  | .V6 s0 s1 s2 s3 s4 s5 s6 s7 =>
    ipv6_is_loopback s0 s1 s2 s3 s4 s5 s6 s7 ||
      ipv6_is_unspecified s0 s1 s2 s3 s4 s5 s6 s7 ||
      ipv6_is_unique_local s0 || ipv6_is_link_local s0

/-- A parsed URL, restricted to the three components that
`HttpSandbox::validate_url` inspects (`url.scheme()`, `url.host_str()`,
`url.port()`). The `url` crate parser itself is abstracted. -/
structure Url where
  scheme : String
  host : Option String
  port : Option Nat
deriving DecidableEq

/-- Prefix test over character lists; `str_starts_with` below wraps it
for `String`, modelling Rust `str::starts_with`. -/
def starts_with_chars : List Char → List Char → Bool
  | _, [] => true
  | [], _ :: _ => false
  | c :: cs, p :: ps => c == p && starts_with_chars cs ps

/-- Rust `str::starts_with` on `String`. -/
def str_starts_with (s p : String) : Bool := starts_with_chars s.data p.data

/-- Rust `str::contains(char)`. -/
def str_contains_char (s : String) (c : Char) : Bool := s.data.any (fun a => a == c)

/-- The fixed port blocklist of `validate_url` (`sandbox.rs`, lines 179-190). -/
def blocked_ports : List Nat := [22, 23, 25, 110, 143, 445, 3306, 5432, 6379, 27017]

/-- `HttpSandbox::validate_url` (`sandbox.rs`, lines 127-201), checked in
source order: scheme blocklist, http/https restriction, localhost
literals, private-IP literals, meta-addresses, then the port blocklist.
`parse_ip` abstracts `host.parse::<IpAddr>()`. -/
def validate_url (blocked_schemes : List String) (parse_ip : String → Option IpAddr)
    (url : Url) : Except ExtensionError Unit :=
  if url.scheme ∈ blocked_schemes then
    .error (.HttpError ("Blocked scheme: " ++ url.scheme))
  else if ¬ url.scheme = "http" ∧ ¬ url.scheme = "https" then
    .error (.HttpError ("Only HTTP and HTTPS are allowed, got: " ++ url.scheme))
  else
    match url.host with
    | some host =>
      if host = "localhost" ∨ host = "127.0.0.1" ∨ host = "::1" ∨
          str_starts_with host "127." = true ∨ str_starts_with host "0." = true then
        .error (.HttpError "Access to localhost is blocked")
      else if (match parse_ip host with
               | some ip => is_private_ip ip
               | none => false) = true then
        .error (.HttpError "Access to private IP addresses is blocked")
      else if host = "0.0.0.0" ∨ host = "::" ∨ host = "" then
        .error (.HttpError "Invalid host address")
      else
        match url.port with
        | some port =>
          if port ∈ blocked_ports then
            .error (.HttpError ("Access to port " ++ toString port ++ " is blocked"))
          else
            .ok ()
        | none => .ok ()
    | none => .error (.HttpError "URL must have a host")

/-- `SandboxConfig` (`sandbox.rs`); `timeout` is kept in seconds. -/
structure SandboxConfig where
  timeout_secs : Nat
  max_redirects : Nat
  max_requests_per_second : Nat
  max_response_size : Nat
  blocked_schemes : List String
deriving DecidableEq

/-- `SandboxConfig::default` (`sandbox.rs`, lines 255-270). -/
def SandboxConfig.default : SandboxConfig :=
  { timeout_secs := 30
    max_redirects := 5
    max_requests_per_second := 10
    max_response_size := 50 * 1024 * 1024
    blocked_schemes := ["file", "ftp", "data", "javascript"] }

/-- An HTTP response as consumed by `validate_and_request`: status code,
advertised Content-Length (if any), and the body bytes. -/
structure HttpResponse where
  status : Nat
  content_length : Option Nat
  body : List Nat
deriving DecidableEq

/-- `reqwest::StatusCode::is_success`: 200 ≤ status ≤ 299. -/
def status_is_success (s : Nat) : Bool := decide (200 ≤ s) && decide (s ≤ 299)

/-- `HttpSandbox::validate_and_request` (`sandbox.rs`, lines 60-124).
`parse_url` abstracts `Url::parse`; `rate_ok` is the outcome of the
rate-limiter token check (its wall-clock refill is not modelled);
`net` abstracts the `reqwest` transport, `Except.error` standing for a
transport failure. The second component of the result lists the URLs
actually handed to the HTTP client, so "no request was dispatched" is
the statement that this list is empty. -/
def validate_and_request (cfg : SandboxConfig) (parse_url : String → Option Url)
    (parse_ip : String → Option IpAddr) (rate_ok : Bool)
    (net : String → Option (List Nat) → Except String HttpResponse)
    (url_str : String) (body : Option (List Nat)) :
    Except ExtensionError (List Nat) × List String :=
  match parse_url url_str with
  | none => (.error (.HttpError "Invalid URL"), [])
  | some url =>
    match validate_url cfg.blocked_schemes parse_ip url with
    | .error e => (.error e, [])
    | .ok _ =>
      if rate_ok = false then
        (.error (.HttpError "Rate limit exceeded. Please try again later."), [])
      else
        match net url_str body with
        | .error e => (.error (.HttpError ("Request failed: " ++ e)), [url_str])
        | .ok response =>
          if status_is_success response.status = false then
            (.error (.HttpError ("HTTP error: " ++ toString response.status)), [url_str])
          else if (match response.content_length with
                   | some cl => decide (cl > cfg.max_response_size)
                   | none => false) = true then
            (.error (.HttpError "Response too large"), [url_str])
          else if decide (response.body.length > cfg.max_response_size) = true then
            (.error (.HttpError "Response too large"), [url_str])
          else
            (.ok response.body, [url_str])

/-- Result of the `host_http_get` host-import closure: the buffer
written back into guest memory (`none` models a returned null pointer,
`some buf` a buffer `[u32-le size][payload]` at a fresh allocation),
together with the list of URLs handed to the HTTP client. -/
structure HostHttpGetResult where
  buffer : Option (List Nat)
  requests : List String
deriving DecidableEq

/-- Little-endian `u32` byte encoding, as produced by
`(len as u32).to_le_bytes()` in `runtime.rs`. -/
def le_bytes (n : Nat) : List Nat :=
  [n % 256, n / 256 % 256, n / 65536 % 256, n / 16777216 % 256]

/-- The `host_http_get` closure registered by
`WasmRuntime::add_host_functions` (`runtime.rs`, lines 292-399).
The guest-memory read and UTF-8 validation of the URL are modelled as
the `url : Option String` input (`none` means either failed, in which
case 0 is returned before any dispatch); `net` is the shared raw
`reqwest::Client` composed with `error_for_status`; `alloc_ok` folds
the guest `alloc` lookup and the two memory writes. Note that the
source closure sends the URL to the client directly: it never consults
`HttpSandbox`, applies no URL validation and no size bound. -/
def host_http_get (net : String → Except String (List Nat)) (alloc_ok : Bool)
    (url : Option String) : HostHttpGetResult :=
  match url with
  | none => ⟨none, []⟩
  | some u =>
    match net u with
    | .error _ => ⟨none, [u]⟩
    | .ok data =>
      if alloc_ok then ⟨some (le_bytes data.length ++ data), [u]⟩
      else ⟨none, [u]⟩

/-- The import bindings installed by `WasmRuntime::add_host_functions`
(`runtime.rs`, lines 258-405): exactly `env.host_log` and
`env.host_http_get` are bound; no binding for `host_http_post` appears
in the source. -/
def add_host_functions_bindings : List (String × String) :=
  [("env", abi.host_functions.LOG), ("env", abi.host_functions.HTTP_GET)]

/-- Wasmtime linker semantics: `Linker::instantiate` succeeds only when
every import of the module has a binding in the linker. -/
def instantiate_ok (imports : List (String × String)) : Bool :=
  imports.all (fun i => decide (i ∈ add_host_functions_bindings))

/-- `ExtensionExports` record of the manifest (`manifest.rs`). -/
structure ExtensionExports where
  search : Bool
  get_chapters : Bool
  get_chapter_images : Bool
  is_multi_language : Bool
deriving DecidableEq

/-- `ExtensionManifest` (`manifest.rs`). -/
structure ExtensionManifest where
  name : String
  version : String
  description : String
  author : String
  nsfw : Bool
  language : String
  extension_type : String
  base_url : String
  checksum : String
  exports : ExtensionExports
deriving DecidableEq

/-- `ExtensionManifest::validate` (`manifest.rs`, lines 51-89), applying
the five invariants in source order. -/
def ExtensionManifest.validate (m : ExtensionManifest) : Except ExtensionError Unit :=
  if m.name = "" then
    .error (.ValidationError "name cannot be empty")
  else if str_contains_char m.version '.' = false then
    .error (.ValidationError "version must be in semver format (e.g., 1.0.0)")
  else if ¬ m.extension_type ∈ ["manga", "anime", "comic"] then
    .error (.ValidationError ("invalid type: " ++ m.extension_type))
  else if str_starts_with m.checksum "sha256:" = false then
    .error (.ValidationError "checksum must start with 'sha256:'")
  else if m.exports.search = false ∧ m.exports.get_chapters = false ∧
      m.exports.get_chapter_images = false then
    .error (.ValidationError "at least one function must be exported")
  else
    .ok ()

/-- Rust `str::strip_prefix` over character lists: `some rest` exactly
when the second list is the pattern followed by `rest`. -/
def drop_prefix_chars : List Char → List Char → Option (List Char)
  | [], rest => some rest
  | _ :: _, [] => none
  | p :: ps, c :: cs => if c = p then drop_prefix_chars ps cs else none

/-- `checksum.strip_prefix("sha256:")` from `verify_checksum`. -/
def strip_sha256 (s : String) : Option String :=
  (drop_prefix_chars "sha256:".data s.data).map (fun cs => String.mk cs)

/-- `ExtensionManifest::verify_checksum` (`manifest.rs`, lines 92-112).
The file read is abstracted as the `wasm_bytes` argument and the SHA-256
digest formatted as lowercase hex (`format!("\x7b:x\x7d", hasher.finalize())`)
is abstracted as `sha256hex`. -/
def verify_checksum (sha256hex : List Nat → String) (m : ExtensionManifest)
    (wasm_bytes : List Nat) : Except ExtensionError Unit :=
  match strip_sha256 m.checksum with
  | none => .error (.ValidationError "invalid checksum format")
  | some expected =>
    let actual := sha256hex wasm_bytes
    if ¬ actual = expected then
      .error (.ValidationError
        ("checksum mismatch: expected " ++ expected ++ ", got " ++ actual))
    else
      .ok ()

/-- A compiled WASM module, reduced to what the runtime inspects: the
names of its function exports (`module.exports()` filtered to
`ExternType::Func` in `validate_module`). -/
structure Module where
  func_exports : List String
deriving DecidableEq

namespace WasmRuntime

/-- Lookup in the `HashMap<String, Module>` registry, modelled as an
association list with unique keys. -/
def reg_lookup (reg : List (String × Module)) (k : String) : Option Module :=
  (reg.find? (fun p => decide (p.fst = k))).map Prod.snd

/-- `HashMap::insert`: replaces any existing entry for the key. -/
def reg_insert (reg : List (String × Module)) (k : String) (v : Module) :
    List (String × Module) :=
  (k, v) :: reg.filter (fun p => decide (¬ p.fst = k))

/-- `HashMap::remove`. -/
def reg_remove (reg : List (String × Module)) (k : String) : List (String × Module) :=
  reg.filter (fun p => decide (¬ p.fst = k))

/-- `WasmRuntime::is_loaded` (`runtime.rs`, lines 408-411). -/
def is_loaded (reg : List (String × Module)) (name : String) : Bool :=
  (reg_lookup reg name).isSome

/-- `WasmRuntime::list_loaded` (`runtime.rs`, lines 421-424). -/
def list_loaded (reg : List (String × Module)) : List String :=
  reg.map Prod.fst

/-- `WasmRuntime::validate_module` (`runtime.rs`, lines 83-120). -/
def validate_module (m : Module) : Except ExtensionError Unit :=
  if ¬ abi.wasm_exports.ALLOC ∈ m.func_exports then
    .error (.ValidationError "Module must export 'alloc' function")
  else if ¬ abi.wasm_exports.DEALLOC ∈ m.func_exports then
    .error (.ValidationError "Module must export 'dealloc' function")
  else if ¬ (abi.wasm_exports.SEARCH ∈ m.func_exports ∨
      abi.wasm_exports.GET_CHAPTERS ∈ m.func_exports ∨
      abi.wasm_exports.GET_CHAPTER_IMAGES ∈ m.func_exports) then
    .error (.ValidationError
      "Module must export at least one extension function (search, get_chapters, get_chapter_images)")
  else
    .ok ()

/-- `WasmRuntime::load_extension` (`runtime.rs`, lines 52-80). The file
read is abstracted as `wasm_file` (`none` when the path does not exist)
and wasmtime compilation as `compile`. On success the compiled module is
stored in the registry under `name`. -/
def load_extension (compile : List Nat → Except String Module)
    (reg : List (String × Module)) (name : String) (wasm_file : Option (List Nat)) :
    Except ExtensionError (List (String × Module)) :=
  match wasm_file with
  | none => .error (.LoadError "WASM file not found")
  | some wasm_bytes =>
    match compile wasm_bytes with
    | .error e => .error (.LoadError ("Failed to compile WASM module: " ++ e))
    | .ok compiled =>
      match validate_module compiled with
      | .error e => .error e
      | .ok _ => .ok (reg_insert reg name compiled)

/-- `WasmRuntime::unload_extension` (`runtime.rs`, lines 414-418): remove
and return `Ok(())` unconditionally. -/
def unload_extension (reg : List (String × Module)) (name : String) :
    Except ExtensionError (List (String × Module)) :=
  .ok (reg_remove reg name)

/-- The fuel budget assigned by `store.set_fuel(10_000_000)` in
`WasmRuntime::execute_function` (`runtime.rs`, line 146). -/
def fuel_budget : Nat := 10000000

/-- Fuel-metered guest execution: wasmtime with `consume_fuel(true)`
charges each executed instruction at least one unit of fuel and traps
the guest when the store runs out. The guest is modelled as a small-step
machine `step`; `none` is the fuel-exhaustion trap. -/
def run_with_fuel {σ : Type} (step : σ → σ ⊕ (List Nat)) : Nat → σ → Option (List Nat)
  | 0, _ => none
  | n + 1, s =>
    match step s with
    | .inr out => some out
    | .inl s2 => run_with_fuel step n s2

/-- `WasmRuntime::execute_function` (`runtime.rs`, lines 123-255),
restricted to the parts the fuel claim is about: module resolution in
the registry, the fresh store with its fuel budget, and the guest call.
Instantiation, memory export lookup and argument/result marshalling are
not modelled; a trap inside the guest call surfaces as the
`RuntimeError` produced at lines 195-199. -/
def execute_function {σ : Type} (reg : List (String × Module)) (extension_name : String)
    (step : σ → σ ⊕ (List Nat)) (init : σ) : Except ExtensionError (List Nat) :=
  match reg_lookup reg extension_name with
  | none => .error (.RuntimeError ("Extension '" ++ extension_name ++ "' not loaded"))
  | some _ =>
    match run_with_fuel step fuel_budget init with
    | none => .error (.RuntimeError "Function execution failed: all fuel consumed by WebAssembly")
    | some out => .ok out

end WasmRuntime

namespace loader

/-- `loader::ExtensionInfo` (`loader.rs`, lines 92-98): the descriptor
produced by discovery; `wasm_path` is represented by the bytes of the
file it points to. -/
structure ExtensionInfo where
  id : String
  manifest : ExtensionManifest
  wasm_bytes : List Nat
  installed : Bool
deriving DecidableEq

/-- One subdirectory of the extensions directory, as seen by the loader:
the parsed `manifest.json` (`none` when missing or unparsable) and the
bytes of `module.wasm` (`none` when missing). -/
structure ExtDir where
  manifest : Option ExtensionManifest
  wasm : Option (List Nat)
deriving DecidableEq

/-- `ExtensionLoader::load_extension_info` (`loader.rs`, lines 48-73):
load the manifest, validate it, require `module.wasm`, verify the
checksum, and build the descriptor. -/
def load_extension_info (sha256hex : List Nat → String) (dir : ExtDir) :
    Except ExtensionError ExtensionInfo :=
  match dir.manifest with
  | none => .error (.LoadError "manifest.json not found")
  | some manifest =>
    match manifest.validate with
    | .error e => .error e
    | .ok _ =>
      match dir.wasm with
      | none => .error (.LoadError "module.wasm not found")
      | some wasm_bytes =>
        match verify_checksum sha256hex manifest wasm_bytes with
        | .error e => .error e
        | .ok _ => .ok ⟨manifest.name, manifest, wasm_bytes, true⟩

/-- `ExtensionLoader::discover_extensions` (`loader.rs`, lines 16-45):
per-directory failures are logged and skipped, never propagated. -/
def discover_extensions (sha256hex : List Nat → String) (dirs : List ExtDir) :
    List ExtensionInfo :=
  dirs.filterMap (fun d => (load_extension_info sha256hex d).toOption)

end loader

namespace commands

/-- `commands::ExtensionInfo` (`commands/mod.rs`): the flat projection
returned to the shell. -/
structure ExtensionInfo where
  id : String
  name : String
  version : String
  description : String
  author : String
  nsfw : Bool
  language : String
  extension_type : String
  base_url : String
  installed : Bool
  loaded : Bool
  exports : ExtensionExports
deriving DecidableEq

/-- Projection of a discovered extension into the shell-facing record,
with `loaded := true`, as built at the end of the `load_extension`
command (`commands/_extension_control.rs`, lines 43-56). -/
def info_of_loaded (ext : loader.ExtensionInfo) : ExtensionInfo :=
  { id := ext.id
    name := ext.manifest.name
    version := ext.manifest.version
    description := ext.manifest.description
    author := ext.manifest.author
    nsfw := ext.manifest.nsfw
    language := ext.manifest.language
    extension_type := ext.manifest.extension_type
    base_url := ext.manifest.base_url
    installed := ext.installed
    loaded := true
    exports := ext.manifest.exports }

/-- The `load_extension` shell command
(`commands/_extension_control.rs`, lines 7-57): reject double loads,
discover, find the extension by id, load it in the runtime, and return
the updated registry with the info record. Errors are stringified. -/
def load_extension (sha256hex : List Nat → String)
    (compile : List Nat → Except String Module)
    (reg : List (String × Module)) (dirs : List loader.ExtDir)
    (extension_id : String) :
    Except String (List (String × Module) × ExtensionInfo) :=
  if WasmRuntime.is_loaded reg extension_id = true then
    .error ("Extension '" ++ extension_id ++ "' is already loaded")
  else
    match (loader.discover_extensions sha256hex dirs).find?
        (fun e => decide (e.id = extension_id)) with
    | none => .error ("Extension '" ++ extension_id ++ "' not found")
    | some ext =>
      match WasmRuntime.load_extension compile reg ext.id (some ext.wasm_bytes) with
      | .error e => .error (ExtensionError.toString e)
      | .ok reg2 => .ok (reg2, info_of_loaded ext)

/-- The `unload_extension` shell command
(`commands/_extension_control.rs`, lines 61-76): error when the id is
not loaded, otherwise delegate to the registry. -/
def unload_extension (reg : List (String × Module)) (extension_id : String) :
    Except String (List (String × Module)) :=
  if WasmRuntime.is_loaded reg extension_id = false then
    .error ("Extension '" ++ extension_id ++ "' is not loaded")
  else
    match WasmRuntime.unload_extension reg extension_id with
    | .error e => .error (ExtensionError.toString e)
    | .ok reg2 => .ok reg2

/-- Filesystem effect of a successful installation: the destination
directory `<ext_dir>/<name>` and the two files copied into it. -/
structure InstallEffect where
  dest_dir : String
  copied_wasm : List Nat
  copied_manifest : ExtensionManifest
  info : ExtensionInfo
deriving DecidableEq

/-- The `install_extension_from_file` shell command
(`commands/_information.rs`, lines 79-129). Reading and parsing of the
two input files are abstracted as the already-parsed `manifest` and
`wasm_bytes` arguments. The source verifies the checksum and then
immediately creates the directory and copies both files: no call to
`ExtensionManifest::validate` occurs anywhere in the command. -/
def install_extension_from_file (sha256hex : List Nat → String)
    (manifest : ExtensionManifest) (wasm_bytes : List Nat) :
    Except String InstallEffect :=
  match verify_checksum sha256hex manifest wasm_bytes with
  | .error e => .error ("Checksum verification failed: " ++ ExtensionError.toString e)
  | .ok _ =>
    .ok { dest_dir := manifest.name
          copied_wasm := wasm_bytes
          copied_manifest := manifest
          info :=
            { id := manifest.name
              name := manifest.name
              version := manifest.version
              description := manifest.description
              author := manifest.author
              nsfw := manifest.nsfw
              language := manifest.language
              extension_type := manifest.extension_type
              base_url := manifest.base_url
              installed := true
              loaded := false
              exports := manifest.exports } }

end commands

/-! Concrete sample values used by witnesses and counterexamples. -/

/-- A manifest whose `version` violates the dotted-version invariant of
`ExtensionManifest::validate` but whose checksum field is well-formed. -/
def bad_manifest : ExtensionManifest :=
  { name := "badext"
    version := "1"
    description := "d"
    author := "a"
    nsfw := false
    language := "en"
    extension_type := "manga"
    base_url := "https://example.com"
    checksum := "sha256:h"
    exports := ⟨true, false, false, false⟩ }

/-- A well-formed sample manifest for the extension `mangadex`. -/
def sample_manifest : ExtensionManifest :=
  { name := "mangadex"
    version := "1.0.0"
    description := "d"
    author := "a"
    nsfw := false
    language := "en"
    extension_type := "manga"
    base_url := "https://example.com"
    checksum := "sha256:aa"
    exports := ⟨true, true, true, false⟩ }

/-- A sample hash oracle: the original module bytes `[0]` hash to `"aa"`
(matching `sample_manifest.checksum`), anything else to `"bb"`. -/
def sample_hash : List Nat → String := fun b => if b = [0] then "aa" else "bb"

/-- A sample compiler whose output module carries the required exports. -/
def sample_compile : List Nat → Except String Module :=
  fun _ => .ok ⟨["alloc", "dealloc", "extension_search"]⟩

/-- A sample URL parser defined only at the loopback URL of scenario S3. -/
def parse_url_local : String → Option Url :=
  fun s =>
    if s = "http://127.0.0.1:8080/x" then some ⟨"http", some "127.0.0.1", some 8080⟩
    else none

/-- A response body one byte larger than the default 50 MiB ceiling. -/
def oversize_body : List Nat := List.replicate (50 * 1024 * 1024 + 1) 0

/-! Helper lemmas. -/

/-- Rebuilding a string from its character data is the identity. -/
theorem string_mk_data (s : String) : String.mk s.data = s := by
  cases s
  rfl

/-- Strings with equal character data are equal. -/
theorem string_ext (s t : String) (h : s.data = t.data) : s = t := by
  have h2 := congrArg String.mk h
  rwa [string_mk_data, string_mk_data] at h2

/-- `drop_prefix_chars` succeeds on a list that starts with the pattern. -/
theorem drop_prefix_chars_append (p r : List Char) :
    drop_prefix_chars p (p ++ r) = some r := by
  induction p with
  | nil => rfl
  | cons c cs ih => simp [drop_prefix_chars, ih]

/-- A successful `drop_prefix_chars` decomposes its input. -/
theorem drop_prefix_chars_some (p : List Char) :
    ∀ l r : List Char, drop_prefix_chars p l = some r → l = p ++ r := by
  induction p with
  | nil =>
    intro l r h
    unfold drop_prefix_chars at h
    injection h with h
  | cons c cs ih =>
    intro l r h
    cases l with
    | nil => simp [drop_prefix_chars] at h
    | cons x xs =>
      unfold drop_prefix_chars at h
      by_cases hx : x = c
      · rw [if_pos hx] at h
        have hxs := ih xs r h
        subst hx
        simp [hxs]
      · rw [if_neg hx] at h
        cases h

/-- Characterisation of `strip_prefix("sha256:")`. -/
theorem strip_sha256_eq_some (s t : String) :
    strip_sha256 s = some t ↔ s = "sha256:" ++ t := by
  constructor
  · intro h
    unfold strip_sha256 at h
    cases hd : drop_prefix_chars "sha256:".data s.data with
    | none => rw [hd] at h; cases h
    | some r =>
      rw [hd] at h
      injection h with h
      have hl := drop_prefix_chars_some _ _ _ hd
      apply string_ext
      rw [String.data_append, hl]
      have : r = t.data := by rw [← h]
      rw [this]
  · intro h
    subst h
    unfold strip_sha256
    rw [String.data_append, drop_prefix_chars_append]
    simp [string_mk_data]

/-- Unfolding of `verify_checksum` once the prefix has been stripped. -/
theorem verify_checksum_strip (sha256hex : List Nat → String)
    (m : ExtensionManifest) (bytes : List Nat) (expected : String)
    (hs : strip_sha256 m.checksum = some expected) :
    verify_checksum sha256hex m bytes =
      (if ¬ sha256hex bytes = expected then
        .error (.ValidationError
          ("checksum mismatch: expected " ++ expected ++ ", got " ++ sha256hex bytes))
      else .ok ()) := by
  unfold verify_checksum
  rw [hs]

/-- `verify_checksum` succeeds exactly when the manifest checksum is
`"sha256:"` followed by the digest of the bytes. -/
theorem verify_checksum_ok_iff (sha256hex : List Nat → String)
    (m : ExtensionManifest) (bytes : List Nat) :
    verify_checksum sha256hex m bytes = .ok () ↔
      m.checksum = "sha256:" ++ sha256hex bytes := by
  constructor
  · intro h
    cases hs : strip_sha256 m.checksum with
    | none => unfold verify_checksum at h; rw [hs] at h; cases h
    | some expected =>
      rw [verify_checksum_strip sha256hex m bytes expected hs] at h
      by_cases he : sha256hex bytes = expected
      · rw [← he] at hs
        exact (strip_sha256_eq_some _ _).mp hs
      · rw [if_pos he] at h
        cases h
  · intro h
    have hs : strip_sha256 m.checksum = some (sha256hex bytes) :=
      (strip_sha256_eq_some _ _).mpr h
    rw [verify_checksum_strip sha256hex m bytes _ hs]
    simp

/-- On a mismatching digest, `verify_checksum` reports both the expected
and the received hex digest. -/
theorem verify_checksum_mismatch (sha256hex : List Nat → String)
    (m : ExtensionManifest) (bytes bytes' : List Nat)
    (hck : m.checksum = "sha256:" ++ sha256hex bytes)
    (hne : ¬ sha256hex bytes' = sha256hex bytes) :
    verify_checksum sha256hex m bytes' =
      .error (.ValidationError
        ("checksum mismatch: expected " ++ sha256hex bytes ++ ", got " ++ sha256hex bytes')) := by
  rw [verify_checksum_strip sha256hex m bytes' _ ((strip_sha256_eq_some _ _).mpr hck)]
  simp [hne]

/-- A guest that never finishes exhausts any finite fuel budget. -/
theorem run_with_fuel_loop {σ : Type} (step : σ → σ ⊕ (List Nat))
    (h : ∀ s, ∃ s2, step s = .inl s2) :
    ∀ (n : Nat) (s : σ), WasmRuntime.run_with_fuel step n s = none := by
  intro n
  induction n with
  | zero => intro s; rfl
  | succ n ih =>
    intro s
    obtain ⟨s2, hs⟩ := h s
    unfold WasmRuntime.run_with_fuel
    rw [hs]
    exact ih s2

/-! Claims. -/

/-- C9: at the registry layer, `unload_extension` always returns ok —
also when the id is not present — so `unload(id); unload(id)` never
raises, and the second call is a no-op that leaves the registry
unchanged. -/
theorem C9_registry_unload_idempotent (reg : List (String × Module)) (name : String) :
    WasmRuntime.unload_extension reg name = .ok (WasmRuntime.reg_remove reg name) ∧
    WasmRuntime.reg_remove (WasmRuntime.reg_remove reg name) name =
      WasmRuntime.reg_remove reg name ∧
    WasmRuntime.unload_extension (WasmRuntime.reg_remove reg name) name =
      .ok (WasmRuntime.reg_remove reg name) := by
  refine ⟨rfl, ?_, ?_⟩
  · unfold WasmRuntime.reg_remove
    rw [List.filter_filter]
    simp
  · unfold WasmRuntime.unload_extension WasmRuntime.reg_remove
    rw [List.filter_filter]
    simp

/-- C10: the shell-level `unload_extension` command is not idempotent:
for an id that is not loaded it returns the error string
`Extension '<id>' is not loaded`; it removes the module exactly when
the id is loaded. -/
theorem C10_command_unload_not_idempotent (reg : List (String × Module)) (id : String) :
    (WasmRuntime.is_loaded reg id = false →
      commands.unload_extension reg id =
        .error ("Extension '" ++ id ++ "' is not loaded")) ∧
    (WasmRuntime.is_loaded reg id = true →
      commands.unload_extension reg id = .ok (WasmRuntime.reg_remove reg id)) := by
  constructor
  · intro h
    unfold commands.unload_extension
    rw [h]
    rfl
  · intro h
    unfold commands.unload_extension
    rw [h]
    rfl

/-- C10 witness: on the empty registry, unloading errors with the exact
message; on a registry holding the id, unloading succeeds. -/
theorem C10_command_unload_not_idempotent_witness :
    commands.unload_extension [] "mangadex" =
      .error ("Extension '" ++ "mangadex" ++ "' is not loaded") ∧
    commands.unload_extension [("mangadex", Module.mk [])] "mangadex" =
      .ok (WasmRuntime.reg_remove [("mangadex", Module.mk [])] "mangadex") :=
  ⟨(C10_command_unload_not_idempotent [] "mangadex").1 (by decide),
   (C10_command_unload_not_idempotent [("mangadex", Module.mk [])] "mangadex").2 (by decide)⟩

/-- C7: `load_extension` fails with `ValidationError` whenever the
compiled module's function exports do not include both `alloc` and
`dealloc` together with at least one of `extension_search`,
`extension_get_chapters`, `extension_get_chapter_images`; when all
requirements are present, the module is inserted into the registry
under the requested name. -/
theorem C7_load_requires_exports (compile : List Nat → Except String Module)
    (reg : List (String × Module)) (name : String) (bytes : List Nat)
    (compiled : Module) (hc : compile bytes = .ok compiled) :
    (¬ (abi.wasm_exports.ALLOC ∈ compiled.func_exports ∧
        abi.wasm_exports.DEALLOC ∈ compiled.func_exports ∧
        (abi.wasm_exports.SEARCH ∈ compiled.func_exports ∨
         abi.wasm_exports.GET_CHAPTERS ∈ compiled.func_exports ∨
         abi.wasm_exports.GET_CHAPTER_IMAGES ∈ compiled.func_exports)) →
      ∃ msg, WasmRuntime.load_extension compile reg name (some bytes) =
        .error (.ValidationError msg)) ∧
    ((abi.wasm_exports.ALLOC ∈ compiled.func_exports ∧
      abi.wasm_exports.DEALLOC ∈ compiled.func_exports ∧
      (abi.wasm_exports.SEARCH ∈ compiled.func_exports ∨
       abi.wasm_exports.GET_CHAPTERS ∈ compiled.func_exports ∨
       abi.wasm_exports.GET_CHAPTER_IMAGES ∈ compiled.func_exports)) →
      WasmRuntime.load_extension compile reg name (some bytes) =
        .ok (WasmRuntime.reg_insert reg name compiled)) := by
  have hload : WasmRuntime.load_extension compile reg name (some bytes) =
      (match WasmRuntime.validate_module compiled with
       | .error e => .error e
       | .ok _ => .ok (WasmRuntime.reg_insert reg name compiled)) := by
    unfold WasmRuntime.load_extension
    simp only [hc]
  constructor
  · intro hmiss
    rw [hload]
    unfold WasmRuntime.validate_module
    by_cases h1 : abi.wasm_exports.ALLOC ∈ compiled.func_exports
    · by_cases h2 : abi.wasm_exports.DEALLOC ∈ compiled.func_exports
      · by_cases h3 : abi.wasm_exports.SEARCH ∈ compiled.func_exports ∨
            abi.wasm_exports.GET_CHAPTERS ∈ compiled.func_exports ∨
            abi.wasm_exports.GET_CHAPTER_IMAGES ∈ compiled.func_exports
        · exact absurd ⟨h1, h2, h3⟩ hmiss
        · exact ⟨"Module must export at least one extension function (search, get_chapters, get_chapter_images)",
            by simp [h1, h2, h3]⟩
      · exact ⟨"Module must export 'dealloc' function", by simp [h1, h2]⟩
    · exact ⟨"Module must export 'alloc' function", by simp [h1]⟩
  · intro hall
    rw [hload]
    unfold WasmRuntime.validate_module
    simp [hall.1, hall.2.1, hall.2.2]

/-- C7 witness: a module without exports is rejected with a
`ValidationError`; a module exporting `alloc`, `dealloc` and
`extension_search` is registered. -/
theorem C7_load_requires_exports_witness :
    (∃ msg, WasmRuntime.load_extension (fun _ => .ok (Module.mk [])) [] "x" (some []) =
      .error (.ValidationError msg)) ∧
    WasmRuntime.load_extension sample_compile [] "x" (some []) =
      .ok (WasmRuntime.reg_insert [] "x" (Module.mk ["alloc", "dealloc", "extension_search"])) :=
  ⟨(C7_load_requires_exports (fun _ => .ok (Module.mk [])) [] "x" [] (Module.mk []) rfl).1
      (by decide),
   (C7_load_requires_exports sample_compile [] "x" []
      (Module.mk ["alloc", "dealloc", "extension_search"]) rfl).2 (by decide)⟩

/-- C6: every invocation of `execute_function` gives the fresh store a
fuel budget of exactly 10,000,000 units, and a guest that never
terminates ends with a `RuntimeError` from fuel exhaustion instead of
running forever. -/
theorem C6_fuel_bound {σ : Type} (reg : List (String × Module)) (name : String)
    (compiled : Module) (step : σ → σ ⊕ (List Nat)) (init : σ)
    (hreg : WasmRuntime.reg_lookup reg name = some compiled)
    (hloop : ∀ s, ∃ s2, step s = .inl s2) :
    WasmRuntime.fuel_budget = 10000000 ∧
    WasmRuntime.execute_function reg name step init =
      .error (.RuntimeError "Function execution failed: all fuel consumed by WebAssembly") := by
  refine ⟨rfl, ?_⟩
  unfold WasmRuntime.execute_function
  simp only [hreg, run_with_fuel_loop step hloop]

/-- C6 witness: a one-state guest that always continues exhausts the
10,000,000-unit budget and surfaces as a `RuntimeError`. -/
theorem C6_fuel_bound_witness :
    WasmRuntime.fuel_budget = 10000000 ∧
    WasmRuntime.execute_function [("mangadex", Module.mk ["alloc"])] "mangadex"
      (fun _ : Unit => Sum.inl ()) () =
      .error (.RuntimeError "Function execution failed: all fuel consumed by WebAssembly") :=
  C6_fuel_bound [("mangadex", Module.mk ["alloc"])] "mangadex" (Module.mk ["alloc"])
    (fun _ : Unit => Sum.inl ()) () (by decide) (fun _ => ⟨(), rfl⟩)

/-- C4 counterexample: a module importing exactly `env.host_http_post`
does not instantiate, because `add_host_functions` never binds that
name — contradicting the claim that all three host imports are bound. -/
theorem C4_counterexample :
    instantiate_ok [("env", abi.host_functions.HTTP_POST)] = false ∧
    ¬ ("env", abi.host_functions.HTTP_POST) ∈ add_host_functions_bindings := by
  decide

/-- C4 (amended): `add_host_functions` binds exactly `host_log` and
`host_http_get` under the namespace `env`; `host_http_post` is declared
in the ABI but never bound, so any module importing
`env.host_http_post` fails to instantiate. -/
theorem C4_host_imports_bound :
    add_host_functions_bindings =
      [("env", abi.host_functions.LOG), ("env", abi.host_functions.HTTP_GET)] ∧
    (∀ imports : List (String × String),
      ("env", abi.host_functions.HTTP_POST) ∈ imports → instantiate_ok imports = false) := by
  refine ⟨rfl, ?_⟩
  intro imports hmem
  cases hall : instantiate_ok imports with
  | false => rfl
  | true =>
    exfalso
    unfold instantiate_ok at hall
    rw [List.all_eq_true] at hall
    have h2 : ("env", abi.host_functions.HTTP_POST) ∈ add_host_functions_bindings :=
      of_decide_eq_true (hall _ hmem)
    revert h2
    decide

/-- C4 witness: a module importing `env.host_http_post` alongside the
bound `env.host_log` still fails to instantiate. -/
theorem C4_host_imports_bound_witness :
    instantiate_ok [("env", abi.host_functions.LOG), ("env", abi.host_functions.HTTP_POST)] =
      false :=
  C4_host_imports_bound.2
    [("env", abi.host_functions.LOG), ("env", abi.host_functions.HTTP_POST)] (by decide)

/-- C3: evaluation at the failing input. The `host_http_get` host
function applies no size bound at all: a 200 response whose body is
one byte over the default 50 MiB ceiling is written to the guest in
full, so the returned payload exceeds `max_response_size` — the
belt-and-braces checks live in `validate_and_request`, which the host
function never calls. -/
theorem C3_host_http_get_unbounded :
    ∃ payload : List Nat,
      (host_http_get (fun _ => .ok oversize_body) true (some "https://example.com")).buffer =
        some (le_bytes payload.length ++ payload) ∧
      payload.length = 50 * 1024 * 1024 + 1 ∧
      SandboxConfig.default.max_response_size < payload.length := by
  have hlen : oversize_body.length = 50 * 1024 * 1024 + 1 := by
    rw [oversize_body, List.length_replicate]
  refine ⟨oversize_body, rfl, hlen, ?_⟩
  rw [hlen]
  decide

/-- C1: evaluation at the failing input. For the loopback URL of
scenario S3, the `host_http_get` host import hands the URL to the raw
HTTP client unconditionally — one outbound request is dispatched for
every transport outcome and every allocator outcome — while the
sandbox's `validate_and_request`, which the spec says mediates the
call, rejects the same URL before dispatching anything. -/
theorem C1_host_http_get_not_mediated
    (parse_url : String → Option Url) (parse_ip : String → Option IpAddr)
    (hparse : parse_url "http://127.0.0.1:8080/x" =
      some ⟨"http", some "127.0.0.1", some 8080⟩)
    (net : String → Except String (List Nat)) (alloc_ok : Bool) (rate_ok : Bool)
    (net2 : String → Option (List Nat) → Except String HttpResponse) :
    (host_http_get net alloc_ok (some "http://127.0.0.1:8080/x")).requests =
      ["http://127.0.0.1:8080/x"] ∧
    validate_and_request SandboxConfig.default parse_url parse_ip rate_ok net2
      "http://127.0.0.1:8080/x" none =
      (.error (.HttpError "Access to localhost is blocked"), []) := by
  constructor
  · simp only [host_http_get]
    cases hnet : net "http://127.0.0.1:8080/x" with
    | error e => rfl
    | ok data => cases alloc_ok <;> rfl
  · unfold validate_and_request
    rw [hparse]
    rfl

/-- C1 witness: with a parser defined at the loopback URL, a refused
transport and a working allocator, the host import still records the
dispatch while the sandbox rejects without dispatching. -/
theorem C1_host_http_get_not_mediated_witness :
    (host_http_get (fun _ => .error "connection refused") true
        (some "http://127.0.0.1:8080/x")).requests = ["http://127.0.0.1:8080/x"] ∧
    validate_and_request SandboxConfig.default parse_url_local (fun _ => none) true
      (fun _ _ => .error "refused") "http://127.0.0.1:8080/x" none =
      (.error (.HttpError "Access to localhost is blocked"), []) :=
  C1_host_http_get_not_mediated parse_url_local (fun _ => none) (by decide)
    (fun _ => .error "connection refused") true true (fun _ _ => .error "refused")

/-- Unfolding of the `load_extension` command on an empty registry: the
already-loaded rejection cannot fire. -/
theorem command_load_empty_reg (sha256hex : List Nat → String)
    (compile : List Nat → Except String Module) (dirs : List loader.ExtDir) (id : String) :
    commands.load_extension sha256hex compile [] dirs id =
      (match (loader.discover_extensions sha256hex dirs).find?
          (fun e => decide (e.id = id)) with
       | none => .error ("Extension '" ++ id ++ "' not found")
       | some ext =>
         match WasmRuntime.load_extension compile [] ext.id (some ext.wasm_bytes) with
         | .error e => .error (ExtensionError.toString e)
         | .ok reg2 => .ok (reg2, commands.info_of_loaded ext)) := rfl

/-- Unfolding of `load_extension_info` on a directory holding both
files. -/
theorem load_extension_info_eq (sha256hex : List Nat → String)
    (m : ExtensionManifest) (bytes : List Nat) :
    loader.load_extension_info sha256hex ⟨some m, some bytes⟩ =
      (match m.validate with
       | .error e => .error e
       | .ok _ =>
         match verify_checksum sha256hex m bytes with
         | .error e => .error e
         | .ok _ => .ok ⟨m.name, m, bytes, true⟩) := rfl

/-- A directory whose descriptor fails to build is skipped by
discovery. -/
theorem discover_singleton_err (sha256hex : List Nat → String)
    (m : ExtensionManifest) (bytes : List Nat) (e : ExtensionError)
    (hinfo : loader.load_extension_info sha256hex ⟨some m, some bytes⟩ = .error e) :
    loader.discover_extensions sha256hex [⟨some m, some bytes⟩] = [] := by
  simp [loader.discover_extensions, hinfo, Except.toOption]

/-- A directory whose manifest validates and whose checksum matches
yields exactly one descriptor. -/
theorem discover_singleton_ok (sha256hex : List Nat → String)
    (m : ExtensionManifest) (bytes : List Nat)
    (hv : m.validate = .ok ())
    (hcv : verify_checksum sha256hex m bytes = .ok ()) :
    loader.discover_extensions sha256hex [⟨some m, some bytes⟩] =
      [⟨m.name, m, bytes, true⟩] := by
  have hinfo : loader.load_extension_info sha256hex ⟨some m, some bytes⟩ =
      .ok ⟨m.name, m, bytes, true⟩ := by
    rw [load_extension_info_eq]
    simp only [hv, hcv]
  simp [loader.discover_extensions, hinfo, Except.toOption]

/-- Soundness of `validate_url`: a URL that passes carries none of the
blocked features. -/
theorem validate_url_ok_implies (blocked : List String) (parse_ip : String → Option IpAddr)
    (url : Url) (h : validate_url blocked parse_ip url = .ok ()) :
    ¬ url.scheme ∈ blocked ∧ (url.scheme = "http" ∨ url.scheme = "https") ∧
    ∃ host, url.host = some host ∧
      ¬ host = "localhost" ∧ ¬ host = "127.0.0.1" ∧ ¬ host = "::1" ∧
      str_starts_with host "127." = false ∧ str_starts_with host "0." = false ∧
      (∀ ip, parse_ip host = some ip → is_private_ip ip = false) ∧
      ¬ host = "0.0.0.0" ∧ ¬ host = "::" ∧ ¬ host = "" ∧
      (∀ p, url.port = some p → ¬ p ∈ blocked_ports) := by
  unfold validate_url at h
  by_cases c1 : url.scheme ∈ blocked
  · rw [if_pos c1] at h; exact Except.noConfusion h
  rw [if_neg c1] at h
  by_cases c2 : ¬ url.scheme = "http" ∧ ¬ url.scheme = "https"
  · rw [if_pos c2] at h; exact Except.noConfusion h
  rw [if_neg c2] at h
  have hs : url.scheme = "http" ∨ url.scheme = "https" := by
    rcases not_and_or.mp c2 with hx | hx
    · exact Or.inl (not_not.mp hx)
    · exact Or.inr (not_not.mp hx)
  cases hh : url.host with
  | none => simp only [hh] at h; exact Except.noConfusion h
  | some host =>
    simp only [hh] at h
    by_cases c3 : host = "localhost" ∨ host = "127.0.0.1" ∨ host = "::1" ∨
        str_starts_with host "127." = true ∨ str_starts_with host "0." = true
    · rw [if_pos c3] at h; exact Except.noConfusion h
    rw [if_neg c3] at h
    push_neg at c3
    obtain ⟨n1, n2, n3, n4, n5⟩ := c3
    by_cases c4 : (match parse_ip host with
                   | some ip => is_private_ip ip
                   | none => false) = true
    · rw [if_pos c4] at h; exact Except.noConfusion h
    rw [if_neg c4] at h
    have hip : ∀ ip, parse_ip host = some ip → is_private_ip ip = false := by
      intro ip hpi
      simp only [hpi] at c4
      exact Bool.eq_false_iff.mpr c4
    by_cases c5 : host = "0.0.0.0" ∨ host = "::" ∨ host = ""
    · rw [if_pos c5] at h; exact Except.noConfusion h
    rw [if_neg c5] at h
    push_neg at c5
    obtain ⟨m1, m2, m3⟩ := c5
    refine ⟨c1, hs, host, rfl, n1, n2, n3, Bool.eq_false_iff.mpr n4,
      Bool.eq_false_iff.mpr n5, hip, m1, m2, m3, ?_⟩
    intro p hp
    simp only [hp] at h
    by_cases c6 : p ∈ blocked_ports
    · rw [if_pos c6] at h; exact Except.noConfusion h
    · exact c6

/-- Every error produced by `validate_url` is an `HttpError`. -/
theorem validate_url_error_http (blocked : List String) (parse_ip : String → Option IpAddr)
    (url : Url) (e : ExtensionError) (h : validate_url blocked parse_ip url = .error e) :
    ∃ m, e = .HttpError m := by
  unfold validate_url at h
  by_cases c1 : url.scheme ∈ blocked
  · rw [if_pos c1] at h; exact ⟨_, (Except.error.inj h).symm⟩
  rw [if_neg c1] at h
  by_cases c2 : ¬ url.scheme = "http" ∧ ¬ url.scheme = "https"
  · rw [if_pos c2] at h; exact ⟨_, (Except.error.inj h).symm⟩
  rw [if_neg c2] at h
  cases hh : url.host with
  | none => simp only [hh] at h; exact ⟨_, (Except.error.inj h).symm⟩
  | some host =>
    simp only [hh] at h
    by_cases c3 : host = "localhost" ∨ host = "127.0.0.1" ∨ host = "::1" ∨
        str_starts_with host "127." = true ∨ str_starts_with host "0." = true
    · rw [if_pos c3] at h; exact ⟨_, (Except.error.inj h).symm⟩
    rw [if_neg c3] at h
    by_cases c4 : (match parse_ip host with
                   | some ip => is_private_ip ip
                   | none => false) = true
    · rw [if_pos c4] at h; exact ⟨_, (Except.error.inj h).symm⟩
    rw [if_neg c4] at h
    by_cases c5 : host = "0.0.0.0" ∨ host = "::" ∨ host = ""
    · rw [if_pos c5] at h; exact ⟨_, (Except.error.inj h).symm⟩
    rw [if_neg c5] at h
    cases hp : url.port with
    | none => simp only [hp] at h; exact Except.noConfusion h
    | some p =>
      simp only [hp] at h
      by_cases c6 : p ∈ blocked_ports
      · rw [if_pos c6] at h; exact ⟨_, (Except.error.inj h).symm⟩
      · rw [if_neg c6] at h; exact Except.noConfusion h

/-- C5: `validate_url` rejects with an `HttpError` every URL whose
scheme is blocked or not http/https; whose host is absent or empty,
equals `localhost`, `127.0.0.1`, `::1`, `0.0.0.0` or `::`, or starts
with `127.` or `0.`; whose host parses as an IPv4 literal that is
private, loopback, link-local, broadcast, documentation, unspecified or
carrier-grade-NAT, or as an IPv6 literal that is loopback, unspecified,
unique-local or link-local; or whose explicit port is on the fixed
blocklist. -/
theorem C5_validate_url_rejects (blocked : List String) (parse_ip : String → Option IpAddr)
    (url : Url)
    (hbad :
      url.scheme ∈ blocked ∨
      (¬ url.scheme = "http" ∧ ¬ url.scheme = "https") ∨
      url.host = none ∨
      url.host = some "" ∨
      url.host = some "localhost" ∨
      url.host = some "127.0.0.1" ∨
      url.host = some "::1" ∨
      url.host = some "0.0.0.0" ∨
      url.host = some "::" ∨
      (∃ h, url.host = some h ∧
        (str_starts_with h "127." = true ∨ str_starts_with h "0." = true)) ∨
      (∃ h a b c d, url.host = some h ∧ parse_ip h = some (.V4 a b c d) ∧
        (ipv4_is_private a b = true ∨ ipv4_is_loopback a = true ∨
         ipv4_is_link_local a b = true ∨ ipv4_is_broadcast a b c d = true ∨
         ipv4_is_documentation a b c = true ∨ ipv4_is_unspecified a b c d = true ∨
         ipv4_is_cgnat a b = true)) ∨
      (∃ h s0 s1 s2 s3 s4 s5 s6 s7, url.host = some h ∧
        parse_ip h = some (.V6 s0 s1 s2 s3 s4 s5 s6 s7) ∧
        (ipv6_is_loopback s0 s1 s2 s3 s4 s5 s6 s7 = true ∨
         ipv6_is_unspecified s0 s1 s2 s3 s4 s5 s6 s7 = true ∨
         ipv6_is_unique_local s0 = true ∨ ipv6_is_link_local s0 = true)) ∨
      (∃ p, url.port = some p ∧ p ∈ blocked_ports)) :
    ∃ msg, validate_url blocked parse_ip url = .error (.HttpError msg) := by
  cases hres : validate_url blocked parse_ip url with
  | ok u =>
    exfalso
    obtain ⟨g1, g2, host, ghost, n1, n2, n3, s4, s5, hip, m1, m2, m3, hport⟩ :=
      validate_url_ok_implies blocked parse_ip url (by cases u; exact hres)
    rcases hbad with hb | hb | hb | hb | hb | hb | hb | hb | hb | hb | hb | hb | hb
    · exact g1 hb
    · rcases g2 with h2 | h2
      · exact hb.1 h2
      · exact hb.2 h2
    · rw [ghost] at hb; exact Option.noConfusion hb
    · rw [ghost] at hb; exact m3 (Option.some.inj hb)
    · rw [ghost] at hb; exact n1 (Option.some.inj hb)
    · rw [ghost] at hb; exact n2 (Option.some.inj hb)
    · rw [ghost] at hb; exact n3 (Option.some.inj hb)
    · rw [ghost] at hb; exact m1 (Option.some.inj hb)
    · rw [ghost] at hb; exact m2 (Option.some.inj hb)
    · obtain ⟨h2, hh2, hc⟩ := hb
      rw [ghost] at hh2
      obtain rfl := Option.some.inj hh2
      rcases hc with hc | hc
      · rw [hc] at s4; exact Bool.noConfusion s4
      · rw [hc] at s5; exact Bool.noConfusion s5
    · obtain ⟨h2, a, b, c, d, hh2, hpi, hcls⟩ := hb
      rw [ghost] at hh2
      obtain rfl := Option.some.inj hh2
      have hfalse := hip _ hpi
      rcases hcls with hc | hc | hc | hc | hc | hc | hc <;>
        simp [is_private_ip, hc] at hfalse
    · obtain ⟨h2, s0, s1, s2, s3, t4, t5, t6, t7, hh2, hpi, hcls⟩ := hb
      rw [ghost] at hh2
      obtain rfl := Option.some.inj hh2
      have hfalse := hip _ hpi
      rcases hcls with hc | hc | hc | hc <;>
        simp [is_private_ip, hc] at hfalse
    · obtain ⟨p, hp, hmem⟩ := hb
      exact hport p hp hmem
  | error e =>
    obtain ⟨m, rfl⟩ := validate_url_error_http blocked parse_ip url e hres
    exact ⟨m, rfl⟩

/-- C5 witness: a `file://` URL is rejected under the default scheme
blocklist. -/
theorem C5_validate_url_rejects_witness :
    ∃ msg, validate_url SandboxConfig.default.blocked_schemes (fun _ => none)
      ⟨"file", some "example.com", none⟩ = .error (.HttpError msg) :=
  C5_validate_url_rejects SandboxConfig.default.blocked_schemes (fun _ => none)
    ⟨"file", some "example.com", none⟩ (Or.inl (by decide))

/-- C2 counterexample: with the manifest of the `mangadex` extension
and a corrupted `module.wasm` (bytes `[1]` instead of `[0]`), the
`load_extension` command returns the string
`Extension 'mangadex' not found` — not a `ValidationError`, and the
message contains neither the expected digest `aa` nor the received
digest `bb`; discovery swallowed the checksum error. -/
theorem C2_counterexample :
    commands.load_extension sample_hash sample_compile []
      [⟨some sample_manifest, some [1]⟩] "mangadex" =
      .error "Extension 'mangadex' not found" ∧
    ¬ ("aa".data <:+: "Extension 'mangadex' not found".data) ∧
    ¬ ("bb".data <:+: "Extension 'mangadex' not found".data) := by
  refine ⟨rfl, by decide, by decide⟩

/-- C2 (amended): on an empty registry with one installed extension
directory, `load(id)` succeeds iff the manifest validates, its checksum
equals `"sha256:" + lower_hex(H)` for the digest `H` of the module
bytes, and the module compiles with the required exports. Corrupting
`module.wasm` (any change to the bytes that changes the digest) makes
`verify_checksum` fail with the `ValidationError` carrying both the
expected and the received digest, but that error is logged and
swallowed during discovery: the command itself fails with
`Extension '<id>' not found`, and the registry stays empty. -/
theorem C2_checksum_gate (sha256hex : List Nat → String)
    (compile : List Nat → Except String Module) (m : ExtensionManifest)
    (bytes bytes' : List Nat) (id : String) (hname : m.name = id)
    (hne : ¬ sha256hex bytes' = sha256hex bytes) :
    ((∃ out, commands.load_extension sha256hex compile []
        [⟨some m, some bytes⟩] id = .ok out) ↔
      (m.validate = .ok () ∧ m.checksum = "sha256:" ++ sha256hex bytes ∧
       ∃ compiled, compile bytes = .ok compiled ∧
         WasmRuntime.validate_module compiled = .ok ())) ∧
    (m.checksum = "sha256:" ++ sha256hex bytes →
      verify_checksum sha256hex m bytes' =
        .error (.ValidationError ("checksum mismatch: expected " ++ sha256hex bytes ++
          ", got " ++ sha256hex bytes')) ∧
      commands.load_extension sha256hex compile []
        [⟨some m, some bytes'⟩] id =
        .error ("Extension '" ++ id ++ "' not found")) := by
  subst hname
  constructor
  · constructor
    · rintro ⟨out, hout⟩
      rw [command_load_empty_reg] at hout
      cases hv : m.validate with
      | error e =>
        have hd := discover_singleton_err sha256hex m bytes e
          (by rw [load_extension_info_eq]; simp only [hv])
        simp [hd] at hout
      | ok u =>
        cases u
        cases hcv : verify_checksum sha256hex m bytes with
        | error e =>
          have hd := discover_singleton_err sha256hex m bytes e
            (by rw [load_extension_info_eq]; simp only [hv, hcv])
          simp [hd] at hout
        | ok u2 =>
          cases u2
          have hd := discover_singleton_ok sha256hex m bytes hv hcv
          rw [hd] at hout
          simp only [List.find?, decide_True] at hout
          cases hcomp : compile bytes with
          | error e2 =>
            have hload : WasmRuntime.load_extension compile [] m.name (some bytes) =
                .error (.LoadError ("Failed to compile WASM module: " ++ e2)) := by
              unfold WasmRuntime.load_extension
              simp only [hcomp]
            simp [hload] at hout
          | ok compiled =>
            cases hvm : WasmRuntime.validate_module compiled with
            | error e3 =>
              have hload : WasmRuntime.load_extension compile [] m.name (some bytes) =
                  .error e3 := by
                unfold WasmRuntime.load_extension
                simp only [hcomp, hvm]
              simp [hload] at hout
            | ok u3 =>
              cases u3
              exact ⟨rfl, (verify_checksum_ok_iff sha256hex m bytes).mp hcv,
                compiled, rfl, hvm⟩
    · rintro ⟨hv, hck, compiled, hcomp, hvm⟩
      have hcv : verify_checksum sha256hex m bytes = .ok () :=
        (verify_checksum_ok_iff sha256hex m bytes).mpr hck
      have hd := discover_singleton_ok sha256hex m bytes hv hcv
      have hload : WasmRuntime.load_extension compile [] m.name (some bytes) =
          .ok (WasmRuntime.reg_insert [] m.name compiled) := by
        unfold WasmRuntime.load_extension
        simp only [hcomp, hvm]
      refine ⟨(WasmRuntime.reg_insert [] m.name compiled,
        commands.info_of_loaded ⟨m.name, m, bytes, true⟩), ?_⟩
      rw [command_load_empty_reg, hd]
      simp [List.find?, hload]
  · intro hck
    have hmis := verify_checksum_mismatch sha256hex m bytes bytes' hck hne
    refine ⟨hmis, ?_⟩
    have hd : loader.discover_extensions sha256hex [⟨some m, some bytes'⟩] = [] := by
      cases hv : m.validate with
      | error e =>
        exact discover_singleton_err sha256hex m bytes' e
          (by rw [load_extension_info_eq]; simp only [hv])
      | ok u =>
        cases u
        exact discover_singleton_err sha256hex m bytes' _
          (by rw [load_extension_info_eq]; simp only [hv, hmis]; rfl)
    rw [command_load_empty_reg, hd]
    rfl

/-- C2 witness: the amended theorem applied at the concrete `mangadex`
setup with a corrupted module byte. -/
theorem C2_checksum_gate_witness :
    verify_checksum sample_hash sample_manifest [1] =
      .error (.ValidationError ("checksum mismatch: expected " ++ sample_hash [0] ++
        ", got " ++ sample_hash [1])) ∧
    commands.load_extension sample_hash sample_compile []
      [⟨some sample_manifest, some [1]⟩] "mangadex" =
      .error ("Extension '" ++ "mangadex" ++ "' not found") :=
  (C2_checksum_gate sample_hash sample_compile sample_manifest [0] [1] "mangadex"
    rfl (by decide)).2 (by decide)

/-- C8: evaluation at the failing input. `install_extension_from_file`
never calls `ExtensionManifest::validate`: a manifest whose `version`
has no dot — rejected by the §3 invariants — still installs
successfully, with both files copied, as long as its checksum matches
the wasm bytes. -/
theorem C8_install_skips_validation :
    ExtensionManifest.validate bad_manifest =
      .error (.ValidationError "version must be in semver format (e.g., 1.0.0)") ∧
    commands.install_extension_from_file (fun _ => "h") bad_manifest [0] =
      .ok { dest_dir := "badext"
            copied_wasm := [0]
            copied_manifest := bad_manifest
            info :=
              { id := "badext", name := "badext", version := "1", description := "d"
                author := "a", nsfw := false, language := "en", extension_type := "manga"
                base_url := "https://example.com", installed := true, loaded := false
                exports := ⟨true, false, false, false⟩ } } := by
  constructor
  · rfl
  · rfl

end MYK
